import Mathlib

/-!
Shallow embedding of `src/prompter_service.py` (dongjuns/prompter-service).

The module defines two pydantic models (`PrompterRequest`, `PrompterResponse`),
a constant system prompt (`PROMPTER_SYSTEM_PROMPT`), and one FastAPI handler
(`refine_prompt`) that makes a single chat-completion call, parses the reply
content with `json.loads`, and builds the success response, with one generic
`except Exception` clause returning an error payload.

The two external effects — the OpenAI completion call and `json.loads` — are
passed to the handler as explicit function parameters: `call` models
`client.chat.completions.create` followed by `.choices[0].message.content`
(any exception raised anywhere in that expression is the `exn` outcome), and
`jsonLoads` models `json.loads` on the content string (a `JSONDecodeError` is
the `Except.error` outcome).  Exception messages (`str(e)`) are carried as
plain strings; where the message text is produced by CPython or pydantic it
is abstracted to a fixed descriptive string, since no claim constrains the
exact wording of an error description.
-/

/-- Values produced by `json.loads`: the Python representations of JSON
null, booleans, numbers, strings, arrays and objects.  An object carries its
key/value pairs in order; `json.loads` yields a `dict`, so keys are unique. -/
inductive Json where
  | null : Json
  | bool (b : Bool) : Json
  | num (n : Rat) : Json
  | str (s : String) : Json
  | arr (elems : List Json) : Json
  | obj (fields : List (String × Json)) : Json

/-- Whether a parsed JSON value is an object (a Python `dict`). -/
def Json.isObj : Json → Bool
  | .obj _ => true
  | _ => false

/-- Message `str(e)` of the `AttributeError` raised by Python when `.get` is
called on a non-`dict` value (the exact CPython wording is abstracted). -/
def attributeErrorMsg : String := "object has no attribute get"

/-- Message `str(e)` of the pydantic `ValidationError` raised when a `str`
field of `PrompterResponse` receives `None` or a non-string value (the exact
pydantic wording is abstracted). -/
def validationErrorMsg : String := "validation error for PrompterResponse"

/-- Model of `response_data.get(key)` at lines 61-62: on a `dict` it returns
the value for `key`, or `None` when the key is absent; on any other Python
value (`list`, `str`, number, `bool`, `None`) the attribute lookup of `get`
raises an `AttributeError`. -/
def dictGet (j : Json) (key : String) : Except String (Option Json) :=
  match j with
  | .obj fields => .ok (fields.lookup key)
  | _ => .error attributeErrorMsg

/-- Lines 27-28: the request model; one required `str` field. -/
structure PrompterRequest where
  user_query : String

/-- Lines 30-32: the response model; two required `str` fields. -/
structure PrompterResponse where
  enhanced_eng_prompt : String
  back_translation_kor : String

/-- Pydantic validation performed by the `PrompterResponse(...)` constructor
call at lines 60-63: each `str`-annotated field accepts a string and raises a
`ValidationError` on `None` (a key absent from the upstream JSON, since
`dict.get` returns `None`) or on any non-string JSON value. -/
def validateResponse (e k : Option Json) : Except String PrompterResponse :=
  match e, k with
  | some (.str es), some (.str ks) => .ok ⟨es, ks⟩
  | _, _ => .error validationErrorMsg

/-- Lines 13-24: the fixed system prompt string (a triple-quoted literal,
including its leading and trailing newline). -/
def PROMPTER_SYSTEM_PROMPT : String :=
  "\nYou are \x27Prompter\x27, an expert prompt engineer. Your job is to take a user\x27s (Korean) query and perform a 2-step process:\n\n1.  **Enhance & Translate (Step 1):** First, enhance the user\x27s simple query into a detailed, high-quality, and actionable *English* prompt for a main LLM. This prompt should be clear, specific, and anticipate the user\x27s full needs.\n2.  **Back-Translate (Step 2):** Second, you must take the *exact English prompt you just generated* and translate it back into *Korean* for user verification.\n\nYou **must** return ONLY a JSON object with this structure:\n\x7b\n  \"enhanced_eng_prompt\": \"The detailed English prompt you created in Step 1\",\n  \"back_translation_kor\": \"The Korean back-translation from Step 2\"\n\x7d\n"

/-- One role-tagged chat message. -/
structure Message where
  role : String
  content : String

/-- The keyword arguments of `client.chat.completions.create` at lines 43-52:
model identifier, response-format type, message list and sampling
temperature (the float `0.3` is represented exactly as the rational 3/10). -/
structure CompletionParams where
  model : String
  response_format : String
  messages : List Message
  temperature : Rat

/-- The argument record the handler passes to
`client.chat.completions.create` (lines 43-52), as a function of
`request.user_query`. -/
def buildParams (user_query : String) : CompletionParams :=
  { model := "gpt-4o-mini"
    response_format := "json_object"
    messages := [⟨"system", PROMPTER_SYSTEM_PROMPT⟩, ⟨"user", user_query⟩]
    temperature := 3/10 }

/-- Outcome of the completion-call expression
`client.chat.completions.create(...).choices[0].message.content`:
either an exception (network, auth, rate limit, indexing — all collapsed to
the raised message) or the reply content string. -/
inductive CallOutcome where
  | exn (msg : String) : CallOutcome
  | content (s : String) : CallOutcome

/-- What the handler returns: either the validated `PrompterResponse`
(serialized by FastAPI with both fields) or the ad-hoc dictionary with a
single error-description entry built at line 67. -/
inductive HandlerResult where
  | success (r : PrompterResponse) : HandlerResult
  | errorPayload (error : String) : HandlerResult

/-- Lines 36-67: the `/refine` handler.  Inside one `try` block it performs
the completion call with `buildParams request.user_query`, applies
`json.loads` to the content, reads the two keys with `.get`, and constructs
`PrompterResponse`; any exception raised by any of those steps is caught by
the generic `except Exception` clause, which returns the error payload
carrying `str(e)`. -/
def refine_prompt (request : PrompterRequest)
    (call : CompletionParams → CallOutcome)
    (jsonLoads : String → Except String Json) : HandlerResult :=
  match call (buildParams request.user_query) with
  | .exn e => .errorPayload e
  | .content s =>
    match jsonLoads s with
    | .error e => .errorPayload e
    | .ok response_data =>
      match dictGet response_data "enhanced_eng_prompt" with
      | .error e => .errorPayload e
      | .ok eVal =>
        match dictGet response_data "back_translation_kor" with
        | .error e => .errorPayload e
        | .ok kVal =>
          match validateResponse eVal kVal with
          | .error e => .errorPayload e
          | .ok r => .success r

/-- Validation with an absent second argument always fails: pydantic rejects
`None` for the `back_translation_kor : str` field whatever the first field
received. -/
theorem validateResponse_none_right (e : Option Json) :
    validateResponse e none = .error validationErrorMsg := by
  cases e with
  | none => rfl
  | some j => cases j <;> rfl

/-- Validation with an absent first argument always fails: pydantic rejects
`None` for the `enhanced_eng_prompt : str` field whatever the second field
received. -/
theorem validateResponse_none_left (k : Option Json) :
    validateResponse none k = .error validationErrorMsg := by
  cases k with
  | none => rfl
  | some j => cases j <;> rfl

/-- C1: for every request whose upstream reply content parses as a JSON
object with string values for both "enhanced_eng_prompt" and
"back_translation_kor", the handler returns the success response carrying
exactly those two upstream values, unchanged. -/
theorem C1_success_verbatim (request : PrompterRequest)
    (call : CompletionParams → CallOutcome)
    (jsonLoads : String → Except String Json)
    (s : String) (fields : List (String × Json)) (e k : String)
    (hcall : call (buildParams request.user_query) = CallOutcome.content s)
    (hparse : jsonLoads s = Except.ok (Json.obj fields))
    (he : fields.lookup "enhanced_eng_prompt" = some (Json.str e))
    (hk : fields.lookup "back_translation_kor" = some (Json.str k)) :
    refine_prompt request call jsonLoads = HandlerResult.success ⟨e, k⟩ := by
  unfold refine_prompt
  simp only [hcall, hparse, dictGet, he, hk, validateResponse]

/-- Witness for C1 at the example from the spec: Korean query, mocked
upstream JSON object with both fields populated. -/
theorem C1_success_verbatim_witness :
    refine_prompt ⟨"여행 계획 짜줘"⟩ (fun _ => CallOutcome.content "reply")
      (fun _ => Except.ok (Json.obj
        [("enhanced_eng_prompt", Json.str "Plan a 5-day trip to ..."),
         ("back_translation_kor", Json.str "5일간의 여행 계획을 ...")]))
      = HandlerResult.success ⟨"Plan a 5-day trip to ...", "5일간의 여행 계획을 ..."⟩ :=
  C1_success_verbatim _ _ _ "reply" _ _ _ rfl rfl rfl rfl

/-- C2 counterexample: with an upstream JSON object holding only
"enhanced_eng_prompt", the handler does not return any response exposing
that field as present with the other absent — pydantic rejects the `None`
supplied for the missing field, the exception is caught, and the error
payload comes back instead; in particular no success response of any kind is
returned. -/
theorem C2_missing_field_counterexample :
    refine_prompt ⟨"q"⟩ (fun _ => CallOutcome.content "reply")
        (fun _ => Except.ok (Json.obj [("enhanced_eng_prompt", Json.str "x")]))
      = HandlerResult.errorPayload validationErrorMsg
    ∧ ∀ r : PrompterResponse,
      refine_prompt ⟨"q"⟩ (fun _ => CallOutcome.content "reply")
        (fun _ => Except.ok (Json.obj [("enhanced_eng_prompt", Json.str "x")]))
      ≠ HandlerResult.success r := by
  have h0 : refine_prompt ⟨"q"⟩ (fun _ => CallOutcome.content "reply")
      (fun _ => Except.ok (Json.obj [("enhanced_eng_prompt", Json.str "x")]))
      = HandlerResult.errorPayload validationErrorMsg := rfl
  exact ⟨h0, fun r h => by rw [h0] at h; exact HandlerResult.noConfusion h⟩

/-- C2 amended: when the upstream reply content parses as a JSON object
missing either of the two expected keys — "enhanced_eng_prompt" or
"back_translation_kor" — the handler does not fault: the pydantic
validation failure is caught inside the generic handler, and the error
payload is returned; no success response with an absent field is ever
produced. -/
theorem C2_missing_field_error (request : PrompterRequest)
    (call : CompletionParams → CallOutcome)
    (jsonLoads : String → Except String Json)
    (s : String) (fields : List (String × Json))
    (hcall : call (buildParams request.user_query) = CallOutcome.content s)
    (hparse : jsonLoads s = Except.ok (Json.obj fields))
    (hmiss : fields.lookup "enhanced_eng_prompt" = none
      ∨ fields.lookup "back_translation_kor" = none) :
    refine_prompt request call jsonLoads
      = HandlerResult.errorPayload validationErrorMsg := by
  unfold refine_prompt
  cases hmiss with
  | inl h => simp only [hcall, hparse, dictGet, h, validateResponse_none_left]
  | inr h => simp only [hcall, hparse, dictGet, h, validateResponse_none_right]

/-- Witness for the amended C2: an upstream object holding only
"back_translation_kor", so the "enhanced_eng_prompt" key is the missing
one. -/
theorem C2_missing_field_error_witness :
    refine_prompt ⟨"여행 계획 짜줘"⟩ (fun _ => CallOutcome.content "reply")
      (fun _ => Except.ok (Json.obj [("back_translation_kor", Json.str "여행 계획")]))
      = HandlerResult.errorPayload validationErrorMsg :=
  C2_missing_field_error _ _ _ "reply" _ rfl rfl (Or.inl rfl)

/-- C3: when the upstream reply content is not valid JSON, the `json.loads`
exception is caught and the handler returns the error payload carrying the
decode-error description; no exception escapes. -/
theorem C3_invalid_json_error (request : PrompterRequest)
    (call : CompletionParams → CallOutcome)
    (jsonLoads : String → Except String Json)
    (s e : String)
    (hcall : call (buildParams request.user_query) = CallOutcome.content s)
    (hparse : jsonLoads s = Except.error e) :
    refine_prompt request call jsonLoads = HandlerResult.errorPayload e := by
  unfold refine_prompt
  simp only [hcall, hparse]

/-- Witness for C3 with a concrete non-JSON upstream content. -/
theorem C3_invalid_json_error_witness :
    refine_prompt ⟨"q"⟩ (fun _ => CallOutcome.content "not json")
      (fun _ => Except.error "Expecting value: line 1 column 1 (char 0)")
      = HandlerResult.errorPayload "Expecting value: line 1 column 1 (char 0)" :=
  C3_invalid_json_error _ _ _ "not json" _ rfl rfl

/-- C4: the handler never produces anything but a success payload or an
error payload, and each failure stage — an exception in the upstream call, a
JSON decode error, a `.get` on a non-object, and every pydantic rejection
when the success response is constructed (either key missing, either value
a non-string) — is caught generically and surfaces as the same untyped
error-payload shape carrying the exception description. -/
theorem C4_generic_catch (request : PrompterRequest)
    (call : CompletionParams → CallOutcome)
    (jsonLoads : String → Except String Json) :
    ((∃ r, refine_prompt request call jsonLoads = HandlerResult.success r)
      ∨ (∃ m, refine_prompt request call jsonLoads = HandlerResult.errorPayload m))
    ∧ (∀ e, call (buildParams request.user_query) = CallOutcome.exn e →
        refine_prompt request call jsonLoads = HandlerResult.errorPayload e)
    ∧ (∀ s e, call (buildParams request.user_query) = CallOutcome.content s →
        jsonLoads s = Except.error e →
        refine_prompt request call jsonLoads = HandlerResult.errorPayload e)
    ∧ (∀ s j, call (buildParams request.user_query) = CallOutcome.content s →
        jsonLoads s = Except.ok j → j.isObj = false →
        refine_prompt request call jsonLoads = HandlerResult.errorPayload attributeErrorMsg)
    ∧ (∀ s fields m, call (buildParams request.user_query) = CallOutcome.content s →
        jsonLoads s = Except.ok (Json.obj fields) →
        validateResponse (fields.lookup "enhanced_eng_prompt")
          (fields.lookup "back_translation_kor") = Except.error m →
        refine_prompt request call jsonLoads = HandlerResult.errorPayload m) := by
  refine ⟨?_, ?_, ?_, ?_, ?_⟩
  · cases h : refine_prompt request call jsonLoads with
    | success r => exact Or.inl ⟨r, rfl⟩
    | errorPayload m => exact Or.inr ⟨m, rfl⟩
  · intro e hcall
    unfold refine_prompt
    simp only [hcall]
  · intro s e hcall hparse
    unfold refine_prompt
    simp only [hcall, hparse]
  · intro s j hcall hparse hno
    unfold refine_prompt
    simp only [hcall, hparse]
    cases j with
    | obj fields => simp [Json.isObj] at hno
    | null => rfl
    | bool b => rfl
    | num n => rfl
    | str t => rfl
    | arr elems => rfl
  · intro s fields m hcall hparse hval
    unfold refine_prompt
    simp only [hcall, hparse, dictGet, hval]

/-- Witness for C4: the construction-phase conjunct applied where
"enhanced_eng_prompt" is the missing key and "back_translation_kor" is
present as a string. -/
theorem C4_generic_catch_witness :
    refine_prompt ⟨"q"⟩ (fun _ => CallOutcome.content "reply")
      (fun _ => Except.ok (Json.obj [("back_translation_kor", Json.str "계획")]))
      = HandlerResult.errorPayload validationErrorMsg :=
  (C4_generic_catch ⟨"q"⟩ _ _).2.2.2.2 "reply" _ validationErrorMsg rfl rfl rfl

/-- C5: for every query, the message list passed to the upstream completion
API is exactly the system message carrying the constant
`PROMPTER_SYSTEM_PROMPT` (independent of the input) followed by the user
message carrying the raw query unchanged. -/
theorem C5_fixed_messages (q : String) :
    (buildParams q).messages
      = [⟨"system", PROMPTER_SYSTEM_PROMPT⟩, ⟨"user", q⟩]
    ∧ ∀ q2 : String,
        (buildParams q).messages.head? = (buildParams q2).messages.head? :=
  ⟨rfl, fun _ => rfl⟩

/-- C6: for every query, the upstream call parameters are the hardcoded
model identifier, the JSON response-format flag and the fixed temperature
0.3; none of them depends on the input. -/
theorem C6_fixed_call_parameters (q : String) :
    (buildParams q).model = "gpt-4o-mini"
    ∧ (buildParams q).response_format = "json_object"
    ∧ (buildParams q).temperature = 3 / 10
    ∧ ∀ q2 : String,
        (buildParams q).model = (buildParams q2).model
        ∧ (buildParams q).response_format = (buildParams q2).response_format
        ∧ (buildParams q).temperature = (buildParams q2).temperature :=
  ⟨rfl, rfl, rfl, fun _ => ⟨rfl, rfl, rfl⟩⟩

/-- C7: for every query string — the empty string included — no validation
rejects the request: the upstream call is always attempted (any upstream
exception, whatever the query, surfaces in the result, so no branch returns
before the call) and the user message sent upstream is the query exactly as
given. -/
theorem C7_no_input_validation (q m : String)
    (jsonLoads : String → Except String Json) :
    refine_prompt ⟨q⟩ (fun _ => CallOutcome.exn m) jsonLoads
      = HandlerResult.errorPayload m
    ∧ (buildParams q).messages[1]? = some ⟨"user", q⟩ :=
  ⟨rfl, rfl⟩

/-- C8: the handler reads and writes no state besides the request and the
outcome of its one upstream call: two environments that agree on the single
invoked call point (and, when a content string came back, on its parse)
yield identical results, whatever else they differ on. -/
theorem C8_stateless_independent (request : PrompterRequest)
    (call1 call2 : CompletionParams → CallOutcome)
    (jl1 jl2 : String → Except String Json)
    (hcall : call1 (buildParams request.user_query)
      = call2 (buildParams request.user_query))
    (hjl : ∀ s, call1 (buildParams request.user_query) = CallOutcome.content s →
      jl1 s = jl2 s) :
    refine_prompt request call1 jl1 = refine_prompt request call2 jl2 := by
  unfold refine_prompt
  rw [← hcall]
  cases h : call1 (buildParams request.user_query) with
  | exn e => rfl
  | content s => simp only [hjl s h]

/-- Witness for C8: two environments differing in their parse functions
(never consulted, since the call raised) give the same result. -/
theorem C8_stateless_independent_witness :
    refine_prompt ⟨"q"⟩ (fun _ => CallOutcome.exn "boom") (fun _ => Except.error "p1")
      = refine_prompt ⟨"q"⟩ (fun _ => CallOutcome.exn "boom") (fun _ => Except.error "p2") :=
  C8_stateless_independent ⟨"q"⟩ _ _ _ _ rfl (fun _ h => nomatch h)

/-- C9: when the upstream reply content parses as JSON that is not an
object (array, string, number, boolean or null), the `.get` attribute
lookup raises inside the `try` block and the handler returns the error
payload rather than faulting. -/
theorem C9_non_object_reply (request : PrompterRequest)
    (call : CompletionParams → CallOutcome)
    (jsonLoads : String → Except String Json)
    (s : String) (j : Json)
    (hcall : call (buildParams request.user_query) = CallOutcome.content s)
    (hparse : jsonLoads s = Except.ok j)
    (hno : j.isObj = false) :
    ∃ m, refine_prompt request call jsonLoads = HandlerResult.errorPayload m := by
  unfold refine_prompt
  simp only [hcall, hparse]
  cases j with
  | obj fields => simp [Json.isObj] at hno
  | null => exact ⟨attributeErrorMsg, rfl⟩
  | bool b => exact ⟨attributeErrorMsg, rfl⟩
  | num n => exact ⟨attributeErrorMsg, rfl⟩
  | str t => exact ⟨attributeErrorMsg, rfl⟩
  | arr elems => exact ⟨attributeErrorMsg, rfl⟩

/-- Witness for C9: a JSON array reply yields the error payload. -/
theorem C9_non_object_reply_witness :
    ∃ m, refine_prompt ⟨"q"⟩ (fun _ => CallOutcome.content "[1, 2]")
      (fun _ => Except.ok (Json.arr [Json.num 1, Json.num 2]))
      = HandlerResult.errorPayload m :=
  C9_non_object_reply ⟨"q"⟩ _ _ "[1, 2]" (Json.arr [Json.num 1, Json.num 2]) rfl rfl rfl

/-- C10: the handler is deterministic given its environment — two
invocations with the same query whose upstream calls return the same reply
produce equal payloads; all output nondeterminism originates from the
external completion service. -/
theorem C10_deterministic (q : String)
    (call1 call2 : CompletionParams → CallOutcome)
    (jsonLoads : String → Except String Json)
    (hreply : call1 (buildParams q) = call2 (buildParams q)) :
    refine_prompt ⟨q⟩ call1 jsonLoads = refine_prompt ⟨q⟩ call2 jsonLoads := by
  unfold refine_prompt
  rw [hreply]

/-- Witness for C10: two distinct call environments returning the same
reply content give equal results. -/
theorem C10_deterministic_witness :
    refine_prompt ⟨"q"⟩ (fun _ => CallOutcome.content "same") (fun _ => Except.error "e")
      = refine_prompt ⟨"q"⟩
        (fun p => if p.model = "gpt-4o-mini" then CallOutcome.content "same" else CallOutcome.exn "other")
        (fun _ => Except.error "e") :=
  C10_deterministic "q" _ _ _ rfl
